import Mathlib

/-!
Verification of the documentation view-model builder in `skydoc/rule.py`.

The Python module turns protobuf metadata (attributes, outputs, rules, rule
sets) into plain objects consumed by documentation templates.  We embed the
module shallowly: protobuf messages become structures, each Python class
constructor becomes a Lean function, Python string operations are embedded as
functions over `List Char` (a Lean 4.14 `String` is a list of characters), and
`assert` statements make construction return `Option` (`none` = the assert
fires).
-/

namespace Skydoc

/-- Embeds the `build_pb2.Attribute` type enum.  The 18 named tags are those
tested by `Attribute._get_type_str`; `UNRECOGNIZED code` stands for any other
integer value carried by the proto field. -/
inductive AttributeType where
  | INTEGER
  | STRING
  | LABEL
  | OUTPUT
  | STRING_LIST
  | LABEL_LIST
  | OUTPUT_LIST
  | DISTRIBUTION_SET
  | LICENSE
  | STRING_DICT
  | FILESET_ENTRY_LIST
  | LABEL_LIST_DICT
  | STRING_LIST_DICT
  | BOOLEAN
  | TRISTATE
  | INTEGER_LIST
  | LABEL_DICT_UNARY
  | SELECTOR_LIST
  | UNRECOGNIZED (code : Nat)
  deriving DecidableEq

/-- Whether the tag is one of the 18 values named in `_get_type_str`. -/
def attr_type_recognized : AttributeType → Bool
  | .UNRECOGNIZED _ => false
  | _ => true

/-- Embeds the `build_pb2.Attribute` message as read by `Attribute`:
`name`, `type`, `mandatory`, optional `default` (`some d` iff
`proto.HasField('default')`, `d` the text), `documentation`. -/
structure AttributeProto where
  name : String
  type : AttributeType
  mandatory : Bool
  default : Option String
  documentation : String
  deriving DecidableEq

/-- Embeds `Attribute.NAME_LINK`. -/
def NAME_LINK : String :=
  "<a href=\"https://bazel.build/docs/build-ref.html#name\">Name</a>"

/-- Embeds `Attribute.LABEL_LINK`. -/
def LABEL_LINK : String :=
  "<a href=\"https://bazel.build/docs/build-ref.html#labels\">Label</a>"

/-- Embeds `Attribute.LABELS_LINK`. -/
def LABELS_LINK : String :=
  "<a href=\"https://bazel.build/docs/build-ref.html#labels\">labels</a>"

/-- Embeds the `if`/`elif` chain of `Attribute._get_type_str` that assigns the
first value of `type_str`: one label per recognized tag, and for any other tag
`NAME_LINK` when the attribute is named `"name"`, else `"Unknown"`. -/
def attr_base_str (proto : AttributeProto) : String :=
  match proto.type with
  | .INTEGER => "Integer"
  | .STRING => "String"
  | .LABEL => LABEL_LINK
  | .OUTPUT => "Output"
  | .STRING_LIST => "List of strings"
  | .LABEL_LIST => "List of " ++ LABELS_LINK
  | .OUTPUT_LIST => "List of outputs"
  | .DISTRIBUTION_SET => "Distribution Set"
  | .LICENSE => "License"
  | .STRING_DICT => "Dictionary mapping strings to string"
  | .FILESET_ENTRY_LIST => "List of FilesetEntry"
  | .LABEL_LIST_DICT => "Dictionary mapping strings to lists of " ++ LABELS_LINK
  | .STRING_LIST_DICT => "Dictionary mapping strings to lists of strings"
  | .BOOLEAN => "Boolean"
  | .TRISTATE => "Tristate"
  | .INTEGER_LIST => "List of integers"
  | .LABEL_DICT_UNARY => "Label Dict Unary"
  | .SELECTOR_LIST => "Selector List"
  | .UNRECOGNIZED _ => if proto.name = "name" then NAME_LINK else "Unknown"

/-- Embeds `Attribute._get_type_str`: the base label, then `"; Required"` or
`"; Optional"` from the `mandatory` flag, then `"; Default is " + default`
when a default is present and the attribute is not mandatory. -/
def get_type_str (proto : AttributeProto) : String :=
  let type_str := attr_base_str proto
  let type_str := type_str ++ (if proto.mandatory then "; Required" else "; Optional")
  match proto.default with
  | some d => if proto.mandatory then type_str else type_str ++ ("; Default is " ++ d)
  | none => type_str

/-- Embeds the `Attribute` class: the fields set by `Attribute.__init__`. -/
structure Attribute where
  name : String
  type : String
  documentation : String
  deriving DecidableEq

/-- Embeds `Attribute.__init__`: copies the name, renders the type string, and
substitutes the fixed sentence for an undocumented attribute named `"name"`
(Python's `not proto.documentation` on a string means the string is empty). -/
def Attribute.fromProto (proto : AttributeProto) : Attribute :=
  { name := proto.name
  , type := get_type_str proto
  , documentation :=
      if proto.name = "name" ∧ proto.documentation = "" then
        "A unique name for this rule."
      else
        proto.documentation }

/-- Embeds the `build_pb2.Output` message: `template`, `documentation`. -/
structure OutputProto where
  template : String
  documentation : String
  deriving DecidableEq

/-- Embeds the `Output` class: a field-for-field copy of its proto. -/
structure Output where
  template : String
  documentation : String
  deriving DecidableEq

/-- Embeds `Output.__init__`. -/
def Output.fromProto (proto : OutputProto) : Output :=
  { template := proto.template, documentation := proto.documentation }

/-- Embeds the `build_pb2.RuleDefinition.Type` enum.  `RULE`, `MACRO` and
`REPOSITORY_RULE` are the values named by `RuleSet.__init__`; `UNRECOGNIZED
code` stands for any other integer the proto field could carry. -/
inductive RuleType where
  | RULE
  | MACRO
  | REPOSITORY_RULE
  | UNRECOGNIZED (code : Nat)
  deriving DecidableEq

/-- Whether the kind tag is one of the three values named in
`RuleSet.__init__`. -/
def rule_kind_recognized : RuleType → Bool
  | .UNRECOGNIZED _ => false
  | _ => true

/-- Embeds the `build_pb2.RuleDefinition` message as read by `Rule`:
`name`, `type`, `documentation`, `example_documentation`, the repeated
`attribute` field (here `attributes`) and repeated `output` field. -/
structure RuleProto where
  name : String
  type : RuleType
  documentation : String
  example_documentation : String
  attributes : List AttributeProto
  output : List OutputProto
  deriving DecidableEq

/-- Embeds one iteration's fragment in `Rule._get_signature`:
`'<a href="#%s.%s">%s</a>' % (proto.name, attr.name, attr.name)`. -/
def sig_fragment (rule_name : String) (attr : AttributeProto) : String :=
  "<a href=\"#" ++ rule_name ++ "." ++ attr.name ++ "\">" ++ attr.name ++ "</a>"

/-- Embeds the loop body of `Rule._get_signature`: append each attribute's
fragment, and `', '` after it unless it is the last attribute. -/
def sig_fragments (rule_name : String) : List AttributeProto → String
  | [] => ""
  | [attr] => sig_fragment rule_name attr
  | attr :: rest => sig_fragment rule_name attr ++ ", " ++ sig_fragments rule_name rest

/-- Embeds `Rule._get_signature`: the rule name, `'('`, the joined fragments,
`')'`. -/
def get_signature (proto : RuleProto) : String :=
  proto.name ++ "(" ++ sig_fragments proto.name proto.attributes ++ ")"

/-- Embeds `proto.documentation.split("\n\n")[0]` from `Rule.__init__`: the
characters before the first (leftmost) occurrence of the two-newline
separator; the whole text when the separator does not occur. -/
def split_para_head : List Char → List Char
  | '\n' :: '\n' :: _ => []
  | c :: cs => c :: split_para_head cs
  | [] => []

/-- Embeds the `Rule` class: the fields set by `Rule.__init__`. -/
structure Rule where
  name : String
  type : RuleType
  documentation : String
  example_documentation : String
  signature : String
  attributes : List Attribute
  outputs : List Output
  short_documentation : String
  deriving DecidableEq

/-- Embeds `Rule.__init__`: field copies, the synthesized signature, one
`Attribute` per attribute proto and one `Output` per output proto in order,
and the short documentation from `split("\n\n")[0]`. -/
def Rule.fromProto (proto : RuleProto) : Rule :=
  { name := proto.name
  , type := proto.type
  , documentation := proto.documentation
  , example_documentation := proto.example_documentation
  , signature := get_signature proto
  , attributes := proto.attributes.map Attribute.fromProto
  , outputs := proto.output.map Output.fromProto
  , short_documentation := String.mk (split_para_head proto.documentation.data) }

/-- Embeds `os.path.basename` as used on the `.bzl` path: the characters
after the last `'/'` (the whole path when there is no `'/'`). -/
def basename (s : List Char) : List Char :=
  s.foldl (fun acc c => if c = '/' then [] else acc ++ [c]) []

/-- Embeds Python `s.replace('.bzl', '')`: remove every leftmost,
non-overlapping occurrence of the four characters `.bzl` (not only a trailing
extension). -/
def replace_bzl : List Char → List Char
  | '.' :: 'b' :: 'z' :: 'l' :: rest => replace_bzl rest
  | c :: cs => c :: replace_bzl cs
  | [] => []

/-- Embeds the `language` proto handed to `RuleSet.__init__` together with the
other constructor arguments: the `.bzl` file path, the repeated
`RuleDefinition` field `rule`, title, description, prefix to strip, and the
output format selector.  Python's `title if title else ...` treats the empty
string (and `None`) as absent; we model the absent title as `""`. -/
structure RuleSetProto where
  bzl_file : String
  rule : List RuleProto
  title : String
  description : String
  strip_prefix : String
  format : String
  deriving DecidableEq

/-- Embeds the `RuleSet` class: the fields set by `RuleSet.__init__`. -/
structure RuleSet where
  bzl_file : String
  name : String
  title : String
  description : String
  output_file : String
  definitions : List Rule
  rules : List Rule
  repository_rules : List Rule
  macros : List Rule
  deriving DecidableEq

/-- Embeds the `for rule_proto in language.rule` loop of `RuleSet.__init__`:
every definition is appended to `definitions`, and to `rules`, `macros` or
`repository_rules` by its kind tag; the `assert` in the final branch makes an
unrecognized tag fail the whole construction (`none`). -/
def partition_rules : List RuleProto → Option (List Rule × List Rule × List Rule × List Rule)
  | [] => some ([], [], [], [])
  | p :: ps =>
    let d := Rule.fromProto p
    match p.type with
    | .RULE =>
      (partition_rules ps).map fun (defs, rs, ms, reps) => (d :: defs, d :: rs, ms, reps)
    | .MACRO =>
      (partition_rules ps).map fun (defs, rs, ms, reps) => (d :: defs, rs, d :: ms, reps)
    | .REPOSITORY_RULE =>
      (partition_rules ps).map fun (defs, rs, ms, reps) => (d :: defs, rs, ms, d :: reps)
    | .UNRECOGNIZED _ => none

/-- Embeds `RuleSet.__init__`.  `none` models a failing `assert`: either the
path does not start with the prefix, or some rule kind tag is unrecognized.
The local `file_extension` mirrors the source, which computes it from the
format selector but never uses it. -/
def RuleSet.fromProto (proto : RuleSetProto) : Option RuleSet :=
  let file_basename := basename proto.bzl_file.data
  let name := String.mk (replace_bzl file_basename)
  let title := if proto.title ≠ "" then proto.title else name ++ " Rules"
  let file_extension := if proto.format = "html" then "html" else "md"
  let _unused := file_extension
  if (proto.strip_prefix.data.isPrefixOf proto.bzl_file.data) = true then
    let output_path := replace_bzl proto.bzl_file.data
    let output_file := String.mk (output_path.drop proto.strip_prefix.length)
    (partition_rules proto.rule).map fun (defs, rs, ms, reps) =>
      { bzl_file := proto.bzl_file
      , name := name
      , title := title
      , description := proto.description
      , output_file := output_file
      , definitions := defs
      , rules := rs
      , repository_rules := reps
      , macros := ms }
  else
    none

/-- Embeds `RuleSet.empty`: `not any([self.rules, self.macros,
self.repository_rules])` — a Python list is truthy iff non-empty. -/
def RuleSet.empty (self : RuleSet) : Bool :=
  !(!self.rules.isEmpty || !self.macros.isEmpty || !self.repository_rules.isEmpty)

/-- Character sequence of the extension text `".bzl"` that
`str.replace('.bzl', '')` removes. -/
def bzl_ext : List Char := ['.', 'b', 'z', 'l']

/-- Character sequence of the blank-line paragraph separator `"\n\n"`. -/
def para_sep : List Char := ['\n', '\n']

/-- Follows the spec's words (the documented base-label table, section 8 of
the spec): the exact label for each of the 18 recognized attribute type tags,
and `"Unknown"` for a tag outside the set.  The `LABEL`-family entries use the
hyperlinked terms the spec calls "hyperlinked Label"/"hyperlinked labels". -/
def documented_label : AttributeType → String
  | .INTEGER => "Integer"
  | .STRING => "String"
  | .LABEL => LABEL_LINK
  | .OUTPUT => "Output"
  | .STRING_LIST => "List of strings"
  | .LABEL_LIST => "List of " ++ LABELS_LINK
  | .OUTPUT_LIST => "List of outputs"
  | .DISTRIBUTION_SET => "Distribution Set"
  | .LICENSE => "License"
  | .STRING_DICT => "Dictionary mapping strings to string"
  | .FILESET_ENTRY_LIST => "List of FilesetEntry"
  | .LABEL_LIST_DICT => "Dictionary mapping strings to lists of " ++ LABELS_LINK
  | .STRING_LIST_DICT => "Dictionary mapping strings to lists of strings"
  | .BOOLEAN => "Boolean"
  | .TRISTATE => "Tristate"
  | .INTEGER_LIST => "List of integers"
  | .LABEL_DICT_UNARY => "Label Dict Unary"
  | .SELECTOR_LIST => "Selector List"
  | .UNRECOGNIZED _ => "Unknown"

/-- Concrete attribute named `"name"` carrying a recognized tag. -/
def c1_input : AttributeProto :=
  { name := "name", type := .STRING, mandatory := false, default := none, documentation := "" }

/-- Concrete attribute named `"name"` carrying an unrecognized tag. -/
def c1_unrec_input : AttributeProto :=
  { name := "name", type := .UNRECOGNIZED 99, mandatory := false, default := none, documentation := "" }

/-- Concrete attribute with the recognized `LABEL` tag. -/
def c4_label_input : AttributeProto :=
  { name := "srcs", type := .LABEL, mandatory := false, default := none, documentation := "" }

/-- Concrete mandatory attribute with an unrecognized tag. -/
def c4_unknown_input : AttributeProto :=
  { name := "visibility", type := .UNRECOGNIZED 42, mandatory := true, default := none, documentation := "" }

/-- Concrete optional attribute with a default value. -/
def c9_opt_input : AttributeProto :=
  { name := "count", type := .INTEGER, mandatory := false, default := some "5", documentation := "" }

/-- Concrete mandatory attribute with a default value. -/
def c9_mand_input : AttributeProto :=
  { name := "count", type := .INTEGER, mandatory := true, default := some "5", documentation := "" }

/-- Concrete rule with attributes `[name, srcs, deps]`. -/
def c7_input : RuleProto :=
  { name := "my_rule", type := .RULE
  , documentation := "", example_documentation := ""
  , attributes :=
      [ { name := "name", type := .UNRECOGNIZED 0, mandatory := true, default := none, documentation := "" }
      , { name := "srcs", type := .LABEL_LIST, mandatory := false, default := none, documentation := "" }
      , { name := "deps", type := .LABEL_LIST, mandatory := false, default := none, documentation := "" } ]
  , output := [] }

/-- Concrete rule whose documentation holds a blank-line separator. -/
def c8_sep_input : RuleProto :=
  { name := "r1", type := .RULE, documentation := "Summary line.\n\nMore details."
  , example_documentation := "", attributes := [], output := [] }

/-- Concrete rule whose documentation holds no blank-line separator. -/
def c8_nosep_input : RuleProto :=
  { name := "r2", type := .RULE, documentation := "One single paragraph."
  , example_documentation := "", attributes := [], output := [] }

/-- Concrete rule set whose source path starts with the prefix and whose
format selector is `"html"`. -/
def c2_html_input : RuleSetProto :=
  { bzl_file := "rules/foo.bzl", rule := [], title := "", description := ""
  , strip_prefix := "rules/", format := "html" }

/-- Same rule set as `c2_html_input` with the markdown-equivalent format. -/
def c2_md_input : RuleSetProto :=
  { bzl_file := "rules/foo.bzl", rule := [], title := "", description := ""
  , strip_prefix := "rules/", format := "md" }

/-- Concrete rule set whose source path holds `".bzl"` twice. -/
def c3_bad_input : RuleSetProto :=
  { bzl_file := "r/a.bzl.bzl", rule := [], title := "", description := ""
  , strip_prefix := "r/", format := "md" }

/-- Concrete rule set whose source path holds `".bzl"` only as the trailing
extension. -/
def c3_ok_input : RuleSetProto :=
  { bzl_file := "pkg/bar.bzl", rule := [], title := "", description := ""
  , strip_prefix := "pkg/", format := "md" }

/-- Concrete rule set whose source path does not start with the configured
prefix. -/
def c3_mismatch_input : RuleSetProto :=
  { bzl_file := "other/foo.bzl", rule := [], title := "", description := ""
  , strip_prefix := "rules/", format := "md" }

/-- Concrete rule set whose basename holds `".bzl"` twice. -/
def c10_input : RuleSetProto :=
  { bzl_file := "x.bzl.bzl", rule := [], title := "", description := ""
  , strip_prefix := "", format := "md" }

/-- Concrete rule set with a plain `.bzl` basename. -/
def c10_ok_input : RuleSetProto :=
  { bzl_file := "tools/build_defs/docs.bzl", rule := [], title := "", description := ""
  , strip_prefix := "tools/", format := "html" }

/-- Concrete rule set holding one entry of each recognized kind. -/
def c5_input : RuleSetProto :=
  { bzl_file := "rules/stuff.bzl"
  , rule :=
      [ { name := "a_rule", type := .RULE, documentation := ""
        , example_documentation := "", attributes := [], output := [] }
      , { name := "a_big_mcr", type := .MACRO, documentation := ""
        , example_documentation := "", attributes := [], output := [] }
      , { name := "a_repo", type := .REPOSITORY_RULE, documentation := ""
        , example_documentation := "", attributes := [], output := [] } ]
  , title := "", description := "", strip_prefix := "rules/", format := "html" }

/-- Concrete rule entry with an unrecognized kind tag. -/
def c6_bad_rule : RuleProto :=
  { name := "odd", type := .UNRECOGNIZED 9, documentation := ""
  , example_documentation := "", attributes := [], output := [] }

/-- Concrete rule set holding `c6_bad_rule`. -/
def c6_input : RuleSetProto :=
  { bzl_file := "rules/odd.bzl"
  , rule :=
      [ { name := "fine", type := .RULE, documentation := ""
        , example_documentation := "", attributes := [], output := [] }
      , c6_bad_rule ]
  , title := "", description := "", strip_prefix := "rules/", format := "html" }

/-- Removing every `".bzl"` occurrence leaves a string without one unchanged. -/
lemma replace_bzl_id (d : List Char) (h : ¬ bzl_ext <:+: d) : replace_bzl d = d := by
  induction d using replace_bzl.induct with
  | case1 rest ih =>
      exact absurd (List.IsPrefix.isInfix ⟨rest, rfl⟩) h
  | case2 c cs hne ih =>
      rw [replace_bzl.eq_2 c cs hne]
      rw [ih (fun hi => h (hi.trans (List.infix_cons (List.infix_refl cs))))]
  | case3 => rfl

/-- When `".bzl"` occurs only as the trailing extension, `replace('.bzl', '')`
removes exactly that extension. -/
lemma replace_bzl_append_ext (s : List Char) (h : ¬ bzl_ext <:+: s) :
    replace_bzl (s ++ bzl_ext) = s := by
  induction s using replace_bzl.induct with
  | case1 rest ih => exact absurd (List.IsPrefix.isInfix ⟨rest, rfl⟩) h
  | case2 c cs hne ih =>
      have hne2 : ∀ rest, c = '.' → cs ++ bzl_ext = 'b' :: 'z' :: 'l' :: rest → False := by
        intro rest hc heq
        rcases cs with _ | ⟨x, _ | ⟨y, _ | ⟨z, cs2⟩⟩⟩
        · simp only [bzl_ext, List.nil_append, List.cons.injEq] at heq
          exact absurd heq.1 (by decide)
        · simp only [bzl_ext, List.cons_append, List.nil_append, List.cons.injEq] at heq
          exact absurd heq.2.1 (by decide)
        · simp only [bzl_ext, List.cons_append, List.nil_append, List.cons.injEq] at heq
          exact absurd heq.2.2.1 (by decide)
        · simp only [List.cons_append, List.cons.injEq] at heq
          exact hne cs2 hc (by rw [heq.1, heq.2.1, heq.2.2.1])
      rw [List.cons_append, replace_bzl.eq_2 c (cs ++ bzl_ext) hne2]
      rw [ih (fun hi => h (hi.trans (List.infix_cons (List.infix_refl cs))))]
  | case3 => rfl

/-- The first split component is a prefix of the documentation. -/
lemma split_para_head_prefix (d : List Char) : split_para_head d <+: d := by
  induction d using split_para_head.induct with
  | case1 tail => exact List.nil_prefix
  | case2 c cs hne ih =>
      rw [split_para_head.eq_2 c cs hne]
      exact (List.cons_prefix_cons).2 ⟨rfl, ih⟩
  | case3 => exact List.nil_prefix

/-- Without a separator, `split("\n\n")[0]` is the whole documentation. -/
lemma split_para_head_no_sep (d : List Char) (h : ¬ para_sep <:+: d) :
    split_para_head d = d := by
  induction d using split_para_head.induct with
  | case1 tail => exact absurd (List.IsPrefix.isInfix ⟨tail, rfl⟩) h
  | case2 c cs hne ih =>
      rw [split_para_head.eq_2 c cs hne]
      rw [ih (fun hi => h (hi.trans (List.infix_cons (List.infix_refl cs))))]
  | case3 => rfl

/-- With a separator, `split("\n\n")[0]` is the separator-free text before the
first separator occurrence. -/
lemma split_para_head_sep (d : List Char) (h : para_sep <:+: d) :
    ¬ para_sep <:+: split_para_head d
    ∧ ∃ rest, d = split_para_head d ++ para_sep ++ rest := by
  induction d using split_para_head.induct with
  | case1 tail =>
      rw [split_para_head.eq_1]
      exact ⟨by decide, ⟨tail, rfl⟩⟩
  | case2 c cs hne ih =>
      rw [split_para_head.eq_2 c cs hne]
      have hcs : para_sep <:+: cs := by
        rcases List.infix_cons_iff.1 h with hp | hi
        · rcases hp with ⟨t, ht⟩
          exfalso
          cases ht
          exact hne _ rfl rfl
        · exact hi
      obtain ⟨h1, rest, hrest⟩ := ih hcs
      constructor
      · intro hbad
        rcases List.infix_cons_iff.1 hbad with hp | hi
        · rcases hp with ⟨t, ht⟩
          simp only [para_sep, List.cons_append, List.nil_append, List.cons.injEq] at ht
          obtain ⟨hc, hsp⟩ := ht
          obtain ⟨t2, ht2⟩ := split_para_head_prefix cs
          rw [← hsp] at ht2
          exact hne (t ++ t2) hc.symm ht2.symm
        · exact h1 hi
      · exact ⟨rest, by rw [List.cons_append, List.cons_append, ← hrest]⟩
  | case3 => exact absurd h (by decide)

/-- The tail worker of `String.intercalate` is a left fold. -/
lemma intercalate_go_eq_foldl (s : String) (as : List String) :
    ∀ acc : String, String.intercalate.go acc s as
      = as.foldl (fun b a => b ++ s ++ a) acc := by
  induction as with
  | nil => intro acc; rfl
  | cons a as ih => intro acc; exact ih (acc ++ s ++ a)

/-- The separator fold lets a constant left part be pulled out front. -/
lemma foldl_append_sep (s : String) (l : List String) :
    ∀ x y : String, l.foldl (fun b a => b ++ s ++ a) (x ++ y)
      = x ++ l.foldl (fun b a => b ++ s ++ a) y := by
  induction l with
  | nil => intro x y; rfl
  | cons a l ih =>
      intro x y
      show l.foldl _ (x ++ y ++ s ++ a) = x ++ l.foldl _ (y ++ s ++ a)
      rw [String.append_assoc x y s, String.append_assoc x (y ++ s) a]
      exact ih x (y ++ s ++ a)

/-- The source's signature loop, on a non-empty attribute list, equals the
comma fold over the tail. -/
lemma sig_fragments_cons_foldl (n : String) (a : AttributeProto) (l : List AttributeProto) :
    sig_fragments n (a :: l)
      = (l.map (sig_fragment n)).foldl (fun b x => b ++ ", " ++ x) (sig_fragment n a) := by
  induction l generalizing a with
  | nil => rfl
  | cons b l ih =>
      show sig_fragment n a ++ ", " ++ sig_fragments n (b :: l) = _
      rw [ih b]
      show _ = (l.map (sig_fragment n)).foldl _ (sig_fragment n a ++ ", " ++ sig_fragment n b)
      rw [← foldl_append_sep ", " (l.map (sig_fragment n)) (sig_fragment n a ++ ", ") (sig_fragment n b)]

/-- The source's signature loop produces the `", "`-joined fragments. -/
lemma sig_fragments_eq_intercalate (n : String) (l : List AttributeProto) :
    sig_fragments n l = String.intercalate ", " (l.map (sig_fragment n)) := by
  cases l with
  | nil => rfl
  | cons a l =>
      show sig_fragments n (a :: l)
        = String.intercalate.go (sig_fragment n a) ", " (l.map (sig_fragment n))
      rw [intercalate_go_eq_foldl, sig_fragments_cons_foldl]

/-- A tag that is not recognized is some `UNRECOGNIZED` value. -/
lemma unrecognized_of_not_recognized (t : AttributeType)
    (h : attr_type_recognized t = false) : ∃ c, t = AttributeType.UNRECOGNIZED c := by
  cases t <;> simp [attr_type_recognized] at h <;> exact ⟨_, rfl⟩

/-- Under only recognized kind tags, the construction loop yields the in-order
definitions and the three in-order filtered groupings. -/
lemma partition_rules_all_recognized (l : List RuleProto)
    (h : ∀ r ∈ l, rule_kind_recognized r.type = true) :
    partition_rules l = some
      ( l.map Rule.fromProto
      , (l.filter fun r => r.type = RuleType.RULE).map Rule.fromProto
      , (l.filter fun r => r.type = RuleType.MACRO).map Rule.fromProto
      , (l.filter fun r => r.type = RuleType.REPOSITORY_RULE).map Rule.fromProto ) := by
  induction l with
  | nil => rfl
  | cons p ps ih =>
      have hps : ∀ r ∈ ps, rule_kind_recognized r.type = true :=
        fun r hr => h r (List.mem_cons_of_mem p hr)
      have hp : rule_kind_recognized p.type = true := h p (List.mem_cons_self p ps)
      cases htype : p.type with
      | RULE => simp [partition_rules, htype, ih hps, List.filter_cons]
      | MACRO => simp [partition_rules, htype, ih hps, List.filter_cons]
      | REPOSITORY_RULE => simp [partition_rules, htype, ih hps, List.filter_cons]
      | UNRECOGNIZED c => rw [htype] at hp; simp [rule_kind_recognized] at hp

/-- One unrecognized kind tag makes the construction loop fail. -/
lemma partition_rules_unrecognized (l : List RuleProto) (r : RuleProto)
    (hr : r ∈ l) (hk : rule_kind_recognized r.type = false) :
    partition_rules l = none := by
  induction l with
  | nil => cases hr
  | cons p ps ih =>
      rcases List.mem_cons.1 hr with rfl | hmem
      · cases htype : r.type with
        | RULE => rw [htype] at hk; simp [rule_kind_recognized] at hk
        | MACRO => rw [htype] at hk; simp [rule_kind_recognized] at hk
        | REPOSITORY_RULE => rw [htype] at hk; simp [rule_kind_recognized] at hk
        | UNRECOGNIZED c => simp [partition_rules, htype]
      · have := ih hmem
        cases htype : p.type <;> simp [partition_rules, htype, this]

/-- Under only recognized kind tags, the three kind counts add up to the
number of entries. -/
lemma counts_sum (l : List RuleProto)
    (h : ∀ r ∈ l, rule_kind_recognized r.type = true) :
    (l.countP fun r => r.type = RuleType.RULE)
      + (l.countP fun r => r.type = RuleType.MACRO)
      + (l.countP fun r => r.type = RuleType.REPOSITORY_RULE) = l.length := by
  induction l with
  | nil => rfl
  | cons p ps ih =>
      have hps : ∀ r ∈ ps, rule_kind_recognized r.type = true :=
        fun r hr => h r (List.mem_cons_of_mem p hr)
      have hp : rule_kind_recognized p.type = true := h p (List.mem_cons_self p ps)
      have := ih hps
      cases htype : p.type with
      | RULE => simp [List.countP_cons, htype]; omega
      | MACRO => simp [List.countP_cons, htype]; omega
      | REPOSITORY_RULE => simp [List.countP_cons, htype]; omega
      | UNRECOGNIZED c => rw [htype] at hp; simp [rule_kind_recognized] at hp

/-- C1, counterexample: the claim says an attribute named `"name"` gets the
hyperlinked `Name` base label even when its tag is one of the 18 recognized
ones; but for the attribute named `"name"` with the recognized `STRING` tag
the display string is `"String; Optional"`, not the `NAME_LINK`-based one the
claim dictates. -/
theorem c1_counterexample :
    get_type_str c1_input = "String; Optional"
    ∧ get_type_str c1_input ≠ NAME_LINK ++ "; Optional" := by
  exact ⟨by decide, by decide⟩

/-- C1, amended: for an attribute named exactly `"name"` whose declared tag is
outside the 18 recognized ones, the base label is the hyperlinked `Name`
term (so the display string starts with `NAME_LINK`); a recognized tag keeps
its own label instead. -/
theorem c1_name_fallback (proto : AttributeProto) (h1 : proto.name = "name")
    (h2 : attr_type_recognized proto.type = false) :
    attr_base_str proto = NAME_LINK
    ∧ NAME_LINK.data <+: (get_type_str proto).data := by
  obtain ⟨c, hc⟩ := unrecognized_of_not_recognized proto.type h2
  have hbase : attr_base_str proto = NAME_LINK := by
    simp [attr_base_str, hc, h1]
  refine ⟨hbase, ?_⟩
  unfold get_type_str
  rw [hbase]
  cases hd : proto.default with
  | none => cases hm : proto.mandatory <;> simp [String.data_append]
  | some d => cases hm : proto.mandatory <;> simp [String.data_append, List.append_assoc]

/-- C1, witness: the amended statement evaluated on the concrete attribute
named `"name"` with an unrecognized tag. -/
theorem c1_name_fallback_witness :
    attr_base_str c1_unrec_input = NAME_LINK
    ∧ NAME_LINK.data <+: (get_type_str c1_unrec_input).data :=
  c1_name_fallback c1_unrec_input (by decide) (by decide)

/-- C2: the output-format selector does not determine the file extension of
the derived output path — it affects nothing at all.  Construction is
invariant under changing the selector, and the concrete `"html"` and `"md"`
rule sets both derive the extension-less output path `"foo"` where the claim
says they must differ as `"html"` vs `"md"` extensions.  (The source computes
`file_extension` from the selector but never uses it.) -/
theorem c2_format_unused :
    (∀ (proto : RuleSetProto) (fmt fmt2 : String),
        RuleSet.fromProto { proto with format := fmt }
          = RuleSet.fromProto { proto with format := fmt2 })
    ∧ (RuleSet.fromProto c2_html_input).map RuleSet.output_file = some "foo"
    ∧ (RuleSet.fromProto c2_md_input).map RuleSet.output_file = some "foo"
    ∧ RuleSet.fromProto c2_html_input = RuleSet.fromProto c2_md_input := by
  refine ⟨fun proto fmt fmt2 => rfl, by decide, by decide, by decide⟩

/-- C3, counterexample: for source path `"r/a.bzl.bzl"` with strip-prefix
`"r/"`, the claim's formula (drop the extension, then the prefix length)
yields `"a.bzl"`, but construction succeeds with output path `"a"` because
`replace('.bzl', '')` removes every occurrence, not only the trailing
extension. -/
theorem c3_counterexample :
    (RuleSet.fromProto c3_bad_input).map RuleSet.output_file = some "a"
    ∧ (RuleSet.fromProto c3_bad_input).map RuleSet.output_file ≠ some "a.bzl" := by
  exact ⟨by decide, by decide⟩

/-- C3, amended: construction fails when the source path does not start with
the strip-prefix; when it does (and every kind tag is recognized) the output
path is the source path with every `".bzl"` occurrence removed and then the
first `len(prefix)` characters dropped — which coincides with the claim's
extension-removal formula whenever `".bzl"` occurs only as the trailing
extension. -/
theorem c3_output_path (proto : RuleSetProto) :
    (proto.strip_prefix.data.isPrefixOf proto.bzl_file.data = false →
        RuleSet.fromProto proto = none)
    ∧ (proto.strip_prefix.data.isPrefixOf proto.bzl_file.data = true →
        (∀ r ∈ proto.rule, rule_kind_recognized r.type = true) →
        (RuleSet.fromProto proto).map RuleSet.output_file
          = some (String.mk
              ((replace_bzl proto.bzl_file.data).drop proto.strip_prefix.length))
        ∧ (∀ stem : List Char,
            proto.bzl_file.data = stem ++ bzl_ext →
            ¬ bzl_ext <:+: stem →
            (RuleSet.fromProto proto).map RuleSet.output_file
              = some (String.mk (stem.drop proto.strip_prefix.length)))) := by
  constructor
  · intro h
    unfold RuleSet.fromProto
    simp [h]
  · intro hpre hrec
    have hout : (RuleSet.fromProto proto).map RuleSet.output_file
        = some (String.mk
            ((replace_bzl proto.bzl_file.data).drop proto.strip_prefix.length)) := by
      unfold RuleSet.fromProto
      rw [partition_rules_all_recognized proto.rule hrec]
      simp [hpre]
    refine ⟨hout, ?_⟩
    intro stem hsplit hstem
    rw [hout, hsplit, replace_bzl_append_ext stem hstem]

/-- C3, witness: the amended statement evaluated concretely — a mismatched
prefix fails construction, and `"pkg/bar.bzl"` with prefix `"pkg/"` derives
output path `"bar"`. -/
theorem c3_output_path_witness :
    RuleSet.fromProto c3_mismatch_input = none
    ∧ (RuleSet.fromProto c3_ok_input).map RuleSet.output_file = some "bar" := by
  refine ⟨(c3_output_path c3_mismatch_input).1 (by decide), ?_⟩
  have h := ((c3_output_path c3_ok_input).2 (by decide)
    (by intro r hr; cases hr)).2 "pkg/bar".data (by decide) (by decide)
  exact h.trans (by decide)

/-- C4: each of the 18 recognized tags produces exactly its documented base
label, and an unrecognized tag on an attribute not named `"name"` displays
`"Unknown; Required"` when mandatory and `"Unknown; Optional"` when optional
(stated for the default-free optional case; a present default appends its own
suffix, covered by C9). -/
theorem c4_type_labels (proto : AttributeProto) :
    (attr_type_recognized proto.type = true →
        attr_base_str proto = documented_label proto.type)
    ∧ (attr_type_recognized proto.type = false → proto.name ≠ "name" →
        (proto.mandatory = true → get_type_str proto = "Unknown; Required")
        ∧ (proto.mandatory = false → proto.default = none →
            get_type_str proto = "Unknown; Optional")) := by
  constructor
  · intro h
    cases htype : proto.type <;>
      simp [attr_base_str, documented_label, htype] <;>
      (rw [htype] at h; simp [attr_type_recognized] at h)
  · intro h hname
    obtain ⟨c, hc⟩ := unrecognized_of_not_recognized proto.type h
    have hbase : attr_base_str proto = "Unknown" := by
      simp [attr_base_str, hc, hname]
    constructor
    · intro hm
      unfold get_type_str
      rw [hbase, hm]
      cases hd : proto.default <;> simp
    · intro hm hd
      unfold get_type_str
      rw [hbase, hm, hd]
      simp

/-- C4, witness: the statement evaluated on a concrete `LABEL` attribute and
a concrete mandatory attribute with an unrecognized tag. -/
theorem c4_type_labels_witness :
    attr_base_str c4_label_input = documented_label AttributeType.LABEL
    ∧ get_type_str c4_unknown_input = "Unknown; Required" :=
  ⟨(c4_type_labels c4_label_input).1 (by decide),
   ((c4_type_labels c4_unknown_input).2 (by decide) (by decide)).1 (by decide)⟩

/-- C5: with only recognized kind tags (and a valid prefix), the constructed
rule set lists all definitions in input order, groups them into the three
in-order filtered views whose lengths are the kind counts, `definitions` has
length `N + M + K`, and `empty()` returns true iff all three counts are
zero. -/
theorem c5_partition (proto : RuleSetProto)
    (hrec : ∀ r ∈ proto.rule, rule_kind_recognized r.type = true)
    (hpre : proto.strip_prefix.data.isPrefixOf proto.bzl_file.data = true) :
    ((RuleSet.fromProto proto).map RuleSet.definitions
        = some (proto.rule.map Rule.fromProto))
    ∧ ((RuleSet.fromProto proto).map RuleSet.rules
        = some ((proto.rule.filter fun r => r.type = RuleType.RULE).map Rule.fromProto))
    ∧ ((RuleSet.fromProto proto).map RuleSet.macros
        = some ((proto.rule.filter fun r => r.type = RuleType.MACRO).map Rule.fromProto))
    ∧ ((RuleSet.fromProto proto).map RuleSet.repository_rules
        = some ((proto.rule.filter fun r => r.type = RuleType.REPOSITORY_RULE).map Rule.fromProto))
    ∧ ((RuleSet.fromProto proto).map (fun rs => rs.definitions.length)
        = some ((proto.rule.countP fun r => r.type = RuleType.RULE)
                 + (proto.rule.countP fun r => r.type = RuleType.MACRO)
                 + (proto.rule.countP fun r => r.type = RuleType.REPOSITORY_RULE)))
    ∧ ((RuleSet.fromProto proto).map (fun rs => rs.rules.length)
        = some (proto.rule.countP fun r => r.type = RuleType.RULE))
    ∧ ((RuleSet.fromProto proto).map (fun rs => rs.macros.length)
        = some (proto.rule.countP fun r => r.type = RuleType.MACRO))
    ∧ ((RuleSet.fromProto proto).map (fun rs => rs.repository_rules.length)
        = some (proto.rule.countP fun r => r.type = RuleType.REPOSITORY_RULE))
    ∧ ((RuleSet.fromProto proto).map RuleSet.empty = some true ↔
        ((proto.rule.countP fun r => r.type = RuleType.RULE) = 0
          ∧ (proto.rule.countP fun r => r.type = RuleType.MACRO) = 0
          ∧ (proto.rule.countP fun r => r.type = RuleType.REPOSITORY_RULE) = 0)) := by
  have hfrom : RuleSet.fromProto proto = some
      { bzl_file := proto.bzl_file
      , name := String.mk (replace_bzl (basename proto.bzl_file.data))
      , title := if proto.title ≠ "" then proto.title
                 else String.mk (replace_bzl (basename proto.bzl_file.data)) ++ " Rules"
      , description := proto.description
      , output_file := String.mk ((replace_bzl proto.bzl_file.data).drop proto.strip_prefix.length)
      , definitions := proto.rule.map Rule.fromProto
      , rules := (proto.rule.filter fun r => r.type = RuleType.RULE).map Rule.fromProto
      , repository_rules := (proto.rule.filter fun r => r.type = RuleType.REPOSITORY_RULE).map Rule.fromProto
      , macros := (proto.rule.filter fun r => r.type = RuleType.MACRO).map Rule.fromProto } := by
    unfold RuleSet.fromProto
    rw [partition_rules_all_recognized proto.rule hrec]
    simp [hpre]
  rw [hfrom]
  refine ⟨rfl, rfl, rfl, rfl, ?_, ?_, ?_, ?_, ?_⟩
  · have hsum := counts_sum proto.rule hrec
    simp only [Option.map_some', Option.some.injEq, List.length_map]
    omega
  · simp only [Option.map_some', Option.some.injEq, List.length_map]
    exact (List.countP_eq_length_filter _ _).symm
  · simp only [Option.map_some', Option.some.injEq, List.length_map]
    exact (List.countP_eq_length_filter _ _).symm
  · simp only [Option.map_some', Option.some.injEq, List.length_map]
    exact (List.countP_eq_length_filter _ _).symm
  · simp only [Option.map_some', Option.some.injEq, RuleSet.empty]
    simp [List.isEmpty_iff, List.filter_eq_nil_iff, List.countP_eq_zero]
    exact and_assoc

/-- C5, witness: the statement evaluated on a concrete rule set with one
rule, one macro-kind entry and one repository-rule entry. -/
theorem c5_partition_witness :
    ((RuleSet.fromProto c5_input).map RuleSet.definitions
        = some (c5_input.rule.map Rule.fromProto))
    ∧ (RuleSet.fromProto c5_input).map (fun rs => rs.rules.length) = some 1
    ∧ (RuleSet.fromProto c5_input).map (fun rs => rs.definitions.length) = some 3 := by
  have h := c5_partition c5_input (by decide) (by decide)
  exact ⟨h.1, h.2.2.2.2.2.1.trans (by decide), h.2.2.2.2.1.trans (by decide)⟩

/-- C6: a rule set holding any entry whose kind tag is outside the closed set
fails construction (the embedded `assert` fires) instead of silently dropping
the entry. -/
theorem c6_unrecognized_kind_fails (proto : RuleSetProto) (r : RuleProto)
    (hr : r ∈ proto.rule) (hk : rule_kind_recognized r.type = false) :
    RuleSet.fromProto proto = none := by
  unfold RuleSet.fromProto
  rw [partition_rules_unrecognized proto.rule r hr hk]
  by_cases h : proto.strip_prefix.data.isPrefixOf proto.bzl_file.data = true <;> simp [h]

/-- C6, witness: the statement evaluated on the concrete rule set holding an
entry with kind tag 9. -/
theorem c6_unrecognized_kind_fails_witness :
    rule_kind_recognized c6_bad_rule.type = false
    ∧ RuleSet.fromProto c6_input = none :=
  ⟨by decide, c6_unrecognized_kind_fails c6_input c6_bad_rule (by decide) (by decide)⟩

/-- C7: every rule's synthesized signature is the rule name, `"("`, one
hyperlink fragment per attribute in declaration order joined by `", "`, and
`")"`; evaluated on the claim's `my_rule` example. -/
theorem c7_signature :
    (∀ proto : RuleProto,
        (Rule.fromProto proto).signature
          = proto.name ++ "(" ++ String.intercalate ", "
              (proto.attributes.map fun attr =>
                "<a href=\"#" ++ proto.name ++ "." ++ attr.name ++ "\">" ++ attr.name ++ "</a>")
            ++ ")")
    ∧ (Rule.fromProto c7_input).signature
        = "my_rule(<a href=\"#my_rule.name\">name</a>, <a href=\"#my_rule.srcs\">srcs</a>, <a href=\"#my_rule.deps\">deps</a>)" := by
  constructor
  · intro proto
    show get_signature proto = _
    unfold get_signature
    rw [sig_fragments_eq_intercalate]
    rfl
  · decide

/-- C8: the short documentation is the text before the first blank-line
separator — it equals the full documentation when no separator occurs, and
otherwise is the separator-free text the separator follows. -/
theorem c8_short_documentation (proto : RuleProto) :
    (¬ para_sep <:+: proto.documentation.data →
        (Rule.fromProto proto).short_documentation = proto.documentation)
    ∧ (para_sep <:+: proto.documentation.data →
        ¬ para_sep <:+: (Rule.fromProto proto).short_documentation.data
        ∧ ∃ rest, proto.documentation.data
            = (Rule.fromProto proto).short_documentation.data ++ para_sep ++ rest) := by
  constructor
  · intro h
    show String.mk (split_para_head proto.documentation.data) = proto.documentation
    rw [split_para_head_no_sep _ h]
  · intro h
    exact split_para_head_sep proto.documentation.data h

/-- C8, witness: the statement evaluated on a separator-free documentation,
plus the claim's round-trip example. -/
theorem c8_short_documentation_witness :
    ((Rule.fromProto c8_nosep_input).short_documentation = c8_nosep_input.documentation)
    ∧ (Rule.fromProto c8_sep_input).short_documentation = "Summary line." :=
  ⟨(c8_short_documentation c8_nosep_input).1 (by decide), by decide⟩

/-- C9: with a present default, a mandatory attribute's display ends with
`"; Required"` and no default suffix, while a non-mandatory attribute's
display ends with `"; Optional; Default is "` and the literal default text. -/
theorem c9_default_suffix (proto : AttributeProto) (d : String)
    (hd : proto.default = some d) :
    (proto.mandatory = true →
        get_type_str proto = attr_base_str proto ++ "; Required"
        ∧ "; Required".data <:+ (get_type_str proto).data)
    ∧ (proto.mandatory = false →
        get_type_str proto = attr_base_str proto ++ "; Optional" ++ ("; Default is " ++ d)
        ∧ ("; Optional; Default is " ++ d).data <:+ (get_type_str proto).data) := by
  constructor
  · intro hm
    have heq : get_type_str proto = attr_base_str proto ++ "; Required" := by
      unfold get_type_str
      rw [hd, hm]
      simp
    refine ⟨heq, ?_⟩
    rw [heq, String.data_append]
    exact List.suffix_append _ _
  · intro hm
    have heq : get_type_str proto
        = attr_base_str proto ++ "; Optional" ++ ("; Default is " ++ d) := by
      unfold get_type_str
      rw [hd, hm]
      simp
    refine ⟨heq, ?_⟩
    have hcat : "; Optional".data ++ "; Default is ".data
        = "; Optional; Default is ".data := by decide
    rw [heq, String.data_append, String.data_append, String.data_append, String.data_append]
    rw [List.append_assoc]
    rw [← List.append_assoc ("; Optional".data) ("; Default is ".data) d.data]
    rw [hcat]
    exact List.suffix_append _ _

/-- C9, witness: the statement evaluated on concrete mandatory and optional
attributes with default `"5"`. -/
theorem c9_default_suffix_witness :
    (get_type_str c9_mand_input = attr_base_str c9_mand_input ++ "; Required")
    ∧ get_type_str c9_opt_input
        = attr_base_str c9_opt_input ++ "; Optional" ++ ("; Default is " ++ "5") :=
  ⟨((c9_default_suffix c9_mand_input "5" (by decide)).1 (by decide)).1,
   ((c9_default_suffix c9_opt_input "5" (by decide)).2 (by decide)).1⟩

/-- C10, counterexample: the claim says only a trailing `".bzl"` extension is
removed from the basename, so `"x.bzl.bzl"` should give unit name
`"x.bzl"`; the code removes every occurrence and gives `"x"`. -/
theorem c10_counterexample :
    (RuleSet.fromProto c10_input).map RuleSet.name = some "x"
    ∧ (RuleSet.fromProto c10_input).map RuleSet.name ≠ some "x.bzl" := by
  exact ⟨by decide, by decide⟩

/-- C10, amended: the unit name is the basename of the source path with every
`".bzl"` occurrence removed; this coincides with trailing-extension removal
when `".bzl"` occurs only as the trailing extension, and a basename without
any `".bzl"` occurrence is kept unchanged. -/
theorem c10_name_derivation (proto : RuleSetProto)
    (hsome : (RuleSet.fromProto proto).isSome = true) :
    (RuleSet.fromProto proto).map RuleSet.name
        = some (String.mk (replace_bzl (basename proto.bzl_file.data)))
    ∧ (∀ stem : List Char,
        basename proto.bzl_file.data = stem ++ bzl_ext →
        ¬ bzl_ext <:+: stem →
        (RuleSet.fromProto proto).map RuleSet.name = some (String.mk stem))
    ∧ (¬ bzl_ext <:+: basename proto.bzl_file.data →
        (RuleSet.fromProto proto).map RuleSet.name
          = some (String.mk (basename proto.bzl_file.data))) := by
  have hname : (RuleSet.fromProto proto).map RuleSet.name
      = some (String.mk (replace_bzl (basename proto.bzl_file.data))) := by
    unfold RuleSet.fromProto at hsome ⊢
    by_cases hpre : proto.strip_prefix.data.isPrefixOf proto.bzl_file.data = true
    · simp only [hpre, if_true] at hsome ⊢
      cases hpart : partition_rules proto.rule with
      | none => rw [hpart] at hsome; simp at hsome
      | some quad =>
          obtain ⟨defs, rs, ms, reps⟩ := quad
          simp
    · simp [hpre] at hsome
  refine ⟨hname, ?_, ?_⟩
  · intro stem hsplit hstem
    rw [hname, hsplit, replace_bzl_append_ext stem hstem]
  · intro hno
    rw [hname, replace_bzl_id _ hno]

/-- C10, witness: the amended statement evaluated on the concrete source path
whose basename is `"docs.bzl"`. -/
theorem c10_name_derivation_witness :
    (RuleSet.fromProto c10_ok_input).map RuleSet.name = some "docs" := by
  have h := (c10_name_derivation c10_ok_input (by decide)).2.1
    "docs".data (by decide) (by decide)
  exact h.trans (by decide)

end Skydoc
